import Mathlib

/-!
Verification of the tryCatch.js result-wrapper library.

The library (src/src/tryCatch.ts) exposes two operations sharing one data
model:

  - `tryCatch`      : wraps a pending promise; awaits it and converts both
                      settlement branches into a `Result` record.
  - `tryCatchSync`  : wraps a nullary callback; invokes it once inside a
                      try/catch and converts both branches into a `Result`.

The embedding below models JavaScript runtime values as `JSVal` (the
language is untyped: any value can be returned, resolved, thrown or
rejected, including `null` and `undefined`).  A promise is modelled by its
settlement (`JSPromise`): resolved with a value or rejected with a cause.
A synchronous callback is modelled by its behaviour at each invocation
index together with an explicit invocation counter (`CallState`), so that
"invoked exactly once" is provable; a computation that may throw is an
`Except JSVal` value, and the source's try/catch corresponds to matching
on that `Except`.

The compiled CommonJS build (src/dist/cjs/tryCatch.js) is embedded
separately as `tryCatch_cjs` / `tryCatchSync_cjs` for the equivalence
claim.
-/

namespace TryCatchJS

/-- JavaScript runtime values, as far as the wrappers can observe them:
the wrappers never inspect the wrapped value, so a coarse universe with
`null`, `undefined`, booleans, numbers, strings and object identities is
enough to express every claim. -/
inductive JSVal where
  | null
  | undef
  | boolean (b : Bool)
  | number (n : Int)
  | string (s : String)
  | object (id : Nat)
deriving DecidableEq

/-- The record shape produced by both wrappers, from the `Success`/`Failure`
interfaces of src/src/tryCatch.ts: three fields `data`, `error`, `success`.
In the untyped runtime both payload fields hold arbitrary values. -/
structure Result where
  data : JSVal
  error : JSVal
  success : Bool
deriving DecidableEq

/-- A promise modelled by its settlement: resolved with a value of type `α`,
or rejected with an arbitrary JavaScript cause. -/
inductive JSPromise (α : Type) where
  | resolved (v : α)
  | rejected (c : JSVal)
deriving DecidableEq

/-- The async wrapper `tryCatch` of src/src/tryCatch.ts: `await promise`
inside `try` either yields the resolved value (success branch builds
`data := result, error := null, success := true`) or throws the rejection
cause, which the `catch` turns into
`data := null, error := error, success := false`.  The function is
`async`, so its own return is always a resolved promise. -/
def tryCatch (promise : JSPromise JSVal) : JSPromise Result :=
  match promise with
  | JSPromise.resolved result =>
      JSPromise.resolved { data := result, error := JSVal.null, success := true }
  | JSPromise.rejected error =>
      JSPromise.resolved { data := JSVal.null, error := error, success := false }

/-- State threaded through a synchronous call: how many times the wrapped
callback has been invoked so far. -/
structure CallState where
  calls : Nat
deriving DecidableEq

/-- A synchronous callback, modelled by its behaviour at each invocation
index: it either returns a value or throws one (`Except.error`). -/
abbrev Callback := Nat → Except JSVal JSVal

/-- Evaluation of the call expression `callback()` in the current state:
produce the callback's outcome at the current invocation index and bump
the invocation counter. -/
def invokeCallback (callback : Callback) (s : CallState) :
    Except JSVal JSVal × CallState :=
  (callback s.calls, { calls := s.calls + 1 })

/-- The sync wrapper `tryCatchSync` of src/src/tryCatch.ts:
`const result = callback()` inside `try`; a normal return builds
`data := result, error := null, success := true`, a thrown value is caught
and builds `data := null, error := error, success := false`.  Both branches
of the source `return` normally, hence both sides are `Except.ok`; the
outer `Except` layer is the wrapper's own exception channel. -/
def tryCatchSync (callback : Callback) (s : CallState) :
    Except JSVal Result × CallState :=
  match invokeCallback callback s with
  | (Except.ok result, s1) =>
      (Except.ok { data := result, error := JSVal.null, success := true }, s1)
  | (Except.error error, s1) =>
      (Except.ok { data := JSVal.null, error := error, success := false }, s1)

/-- The compiled CommonJS `tryCatch` of src/dist/cjs/tryCatch.js: same
try/await/catch body as the TypeScript source, with the type annotations
erased. -/
def tryCatch_cjs (promise : JSPromise JSVal) : JSPromise Result :=
  match promise with
  | JSPromise.resolved result =>
      JSPromise.resolved { data := result, error := JSVal.null, success := true }
  | JSPromise.rejected error =>
      JSPromise.resolved { data := JSVal.null, error := error, success := false }

/-- The compiled CommonJS `tryCatchSync` of src/dist/cjs/tryCatch.js: same
try/catch body as the TypeScript source, with the type annotations
erased. -/
def tryCatchSync_cjs (callback : Callback) (s : CallState) :
    Except JSVal Result × CallState :=
  match invokeCallback callback s with
  | (Except.ok result, s1) =>
      (Except.ok { data := result, error := JSVal.null, success := true }, s1)
  | (Except.error error, s1) =>
      (Except.ok { data := JSVal.null, error := error, success := false }, s1)

/-- Reading the `data` property of a produced record: the source returns a
plain object literal with data properties (no getters), so a read yields
the stored value and leaves the record unchanged. -/
def readData (r : Result) : JSVal × Result := (r.data, r)

/-- Reading the `error` property of a produced record. -/
def readError (r : Result) : JSVal × Result := (r.error, r)

/-- Reading the `success` property of a produced record. -/
def readSuccess (r : Result) : Bool × Result := (r.success, r)

/-- A field is non-absent when it differs from the absence-value `null`
used by the source for the unpopulated field. -/
def nonAbsent (v : JSVal) : Bool :=
  match v with
  | JSVal.null => false
  | _ => true

/-- A record is a possible output of the async wrapper. -/
def ProducedAsync (r : Result) : Prop :=
  ∃ p, tryCatch p = JSPromise.resolved r

/-- A record is a possible output of the sync wrapper. -/
def ProducedSync (r : Result) : Prop :=
  ∃ cb s s1, tryCatchSync cb s = (Except.ok r, s1)

/-- A record is a possible output of either wrapper. -/
def Produced (r : Result) : Prop :=
  ProducedAsync r ∨ ProducedSync r

/-- C1: for every wrapped computation that resolves (async) or returns
(sync) a value `v`, the wrapper produces exactly the record
`data := v, error := null, success := true`. -/
theorem wrappers_success_exact :
    (∀ v, tryCatch (JSPromise.resolved v) =
      JSPromise.resolved { data := v, error := JSVal.null, success := true }) ∧
    (∀ (cb : Callback) (s : CallState) v, cb s.calls = Except.ok v →
      (tryCatchSync cb s).1 =
        Except.ok { data := v, error := JSVal.null, success := true }) := by
  refine ⟨fun v => rfl, fun cb s v h => ?_⟩
  simp [tryCatchSync, invokeCallback, h]

/-- C1 witness: a callback returning the number 42 at its first invocation
yields exactly the success record with data 42. -/
theorem wrappers_success_exact_witness :
    (tryCatchSync (fun _ => Except.ok (JSVal.number 42)) ⟨0⟩).1 =
      Except.ok { data := JSVal.number 42, error := JSVal.null, success := true } :=
  wrappers_success_exact.2 (fun _ => Except.ok (JSVal.number 42)) ⟨0⟩
    (JSVal.number 42) rfl

/-- C2: for every wrapped computation that rejects (async) or raises
(sync) a cause `c`, the wrapper produces exactly the record
`data := null, error := c, success := false`, with `c` the very value that
was raised. -/
theorem wrappers_failure_exact :
    (∀ c, tryCatch (JSPromise.rejected c) =
      JSPromise.resolved { data := JSVal.null, error := c, success := false }) ∧
    (∀ (cb : Callback) (s : CallState) c, cb s.calls = Except.error c →
      (tryCatchSync cb s).1 =
        Except.ok { data := JSVal.null, error := c, success := false }) := by
  refine ⟨fun c => rfl, fun cb s c h => ?_⟩
  simp [tryCatchSync, invokeCallback, h]

/-- C2 witness: a callback throwing the string "boom" at its first
invocation yields exactly the failure record carrying that string. -/
theorem wrappers_failure_exact_witness :
    (tryCatchSync (fun _ => Except.error (JSVal.string "boom")) ⟨0⟩).1 =
      Except.ok { data := JSVal.null, error := JSVal.string "boom", success := false } :=
  wrappers_failure_exact.2 (fun _ => Except.error (JSVal.string "boom")) ⟨0⟩
    (JSVal.string "boom") rfl

/-- C3: for every input, the wrapper call itself never raises and the
promise returned by the async wrapper never rejects: the async wrapper
always yields a resolved promise, and the sync wrapper's own exception
channel is always `Except.ok`. -/
theorem wrappers_total :
    (∀ p, ∃ r, tryCatch p = JSPromise.resolved r) ∧
    (∀ (cb : Callback) (s : CallState), ∃ r, (tryCatchSync cb s).1 = Except.ok r) := by
  constructor
  · intro p
    cases p with
    | resolved v => exact ⟨_, rfl⟩
    | rejected c => exact ⟨_, rfl⟩
  · intro cb s
    cases h : cb s.calls with
    | ok v =>
        exact ⟨{ data := v, error := JSVal.null, success := true },
          by simp [tryCatchSync, invokeCallback, h]⟩
    | error c =>
        exact ⟨{ data := JSVal.null, error := c, success := false },
          by simp [tryCatchSync, invokeCallback, h]⟩

/-- C4 counterexample: a callback that returns the value `null` produces
the record with `data = null`, `error = null`, `success = true`; there
both payload fields equal the absence-value, so "exactly one of
data/error is non-absent" fails on a produced Result. -/
theorem result_exactly_one_cex :
    (tryCatchSync (fun _ => Except.ok JSVal.null) ⟨0⟩).1 =
      Except.ok { data := JSVal.null, error := JSVal.null, success := true } ∧
    ¬ (nonAbsent (Result.mk JSVal.null JSVal.null true).data ≠
        nonAbsent (Result.mk JSVal.null JSVal.null true).error) := by
  exact ⟨rfl, by decide⟩

/-- C4 amended: in every produced Result the field not carrying the
payload is the absence-value `null` (`error = null` on success,
`data = null` on failure), and the `success` flag agrees with whichever
field is populated: a non-absent `data` forces `success = true` and a
non-absent `error` forces `success = false` (so the two fields are never
both non-absent); exact one-sidedness holds whenever the payload itself
is non-null. -/
theorem result_invariant_amended :
    ∀ r, Produced r →
      (r.success = true → r.error = JSVal.null) ∧
      (r.success = false → r.data = JSVal.null) ∧
      (nonAbsent r.data = true → r.success = true) ∧
      (nonAbsent r.error = true → r.success = false) := by
  intro r hr
  have hcases : (∃ v, r = { data := v, error := JSVal.null, success := true }) ∨
      (∃ c, r = { data := JSVal.null, error := c, success := false }) := by
    rcases hr with ⟨p, hp⟩ | ⟨cb, s, s1, hs⟩
    · cases p with
      | resolved v =>
          left
          exact ⟨v, by simpa [tryCatch] using hp.symm⟩
      | rejected c =>
          right
          exact ⟨c, by simpa [tryCatch] using hp.symm⟩
    · cases h : cb s.calls with
      | ok v =>
          left
          refine ⟨v, ?_⟩
          have := hs
          simp [tryCatchSync, invokeCallback, h] at this
          exact this.1.symm
      | error c =>
          right
          refine ⟨c, ?_⟩
          have := hs
          simp [tryCatchSync, invokeCallback, h] at this
          exact this.1.symm
  rcases hcases with ⟨v, rfl⟩ | ⟨c, rfl⟩
  · refine ⟨fun _ => rfl, by simp, fun _ => rfl, by simp [nonAbsent]⟩
  · refine ⟨by simp, fun _ => rfl, by simp [nonAbsent], fun _ => rfl⟩

/-- C4 amended witness: the failure record produced by a callback raising
the number 7 satisfies the amended invariant. -/
theorem result_invariant_amended_witness :
    (Result.mk JSVal.null (JSVal.number 7) false).data = JSVal.null :=
  (result_invariant_amended (Result.mk JSVal.null (JSVal.number 7) false)
    (Or.inr ⟨fun _ => Except.error (JSVal.number 7), ⟨0⟩, ⟨1⟩, rfl⟩)).2.1 rfl

/-- C5: a single call of the sync wrapper invokes the callback exactly
once, whether the callback returns normally or raises: the invocation
counter always advances by exactly one. -/
theorem tryCatchSync_calls_once :
    ∀ (cb : Callback) (s : CallState),
      (tryCatchSync cb s).2.calls = s.calls + 1 := by
  intro cb s
  cases h : cb s.calls with
  | ok v => simp [tryCatchSync, invokeCallback, h]
  | error c => simp [tryCatchSync, invokeCallback, h]

/-- C6: a callback that returns `undefined` without raising yields
`success = true` with `data` equal to `undefined`; the outcome is not
treated as failure. -/
theorem tryCatchSync_undef_success :
    ∀ (cb : Callback) (s : CallState), cb s.calls = Except.ok JSVal.undef →
      (tryCatchSync cb s).1 =
        Except.ok { data := JSVal.undef, error := JSVal.null, success := true } ∧
      ∀ r, (tryCatchSync cb s).1 = Except.ok r → r.success = true := by
  intro cb s h
  constructor
  · simp [tryCatchSync, invokeCallback, h]
  · intro r hr
    simp [tryCatchSync, invokeCallback, h] at hr
    simp [← hr]

/-- C6 witness: the constant-undefined callback at its first invocation
yields the success record with data undefined. -/
theorem tryCatchSync_undef_success_witness :
    (tryCatchSync (fun _ => Except.ok JSVal.undef) ⟨0⟩).1 =
      Except.ok { data := JSVal.undef, error := JSVal.null, success := true } :=
  (tryCatchSync_undef_success (fun _ => Except.ok JSVal.undef) ⟨0⟩ rfl).1

/-- C7: every raised or rejected value of any kind — `null`, `undefined`,
booleans, numbers, strings, plain objects, not only members of a
dedicated error type — is accepted and stored in the `error` field
unmodified: the produced record's `error` field is the raised value
itself. -/
theorem error_captured_verbatim :
    ∀ c : JSVal,
      (∀ r, tryCatch (JSPromise.rejected c) = JSPromise.resolved r →
        r.error = c ∧ r.success = false) ∧
      (∀ (cb : Callback) (s : CallState) r,
        cb s.calls = Except.error c → (tryCatchSync cb s).1 = Except.ok r →
        r.error = c ∧ r.success = false) := by
  intro c
  constructor
  · intro r hr
    simp [tryCatch] at hr
    simp [← hr]
  · intro cb s r h hr
    simp [tryCatchSync, invokeCallback, h] at hr
    simp [← hr]

/-- C7 witness: a rejection whose cause is a bare object (identity 3) is
stored verbatim in the error field of the async wrapper's record. -/
theorem error_captured_verbatim_witness :
    (Result.mk JSVal.null (JSVal.object 3) false).error = JSVal.object 3 ∧
      (Result.mk JSVal.null (JSVal.object 3) false).success = false :=
  (error_captured_verbatim (JSVal.object 3)).1
    (Result.mk JSVal.null (JSVal.object 3) false) rfl

/-- C8: for every Result produced by either wrapper, reading its fields
yields the stored values and leaves the record unchanged, and repeated
reads yield the same values: inspection is idempotent. -/
theorem result_read_idempotent :
    ∀ r, Produced r →
      readData r = (r.data, r) ∧
      readError r = (r.error, r) ∧
      readSuccess r = (r.success, r) ∧
      (readData (readData r).2).1 = (readData r).1 ∧
      (readError (readError r).2).1 = (readError r).1 ∧
      (readSuccess (readSuccess r).2).1 = (readSuccess r).1 := by
  intro r _
  exact ⟨rfl, rfl, rfl, rfl, rfl, rfl⟩

/-- C8 witness: inspection of a concrete produced success record is
idempotent. -/
theorem result_read_idempotent_witness :
    readSuccess (Result.mk (JSVal.boolean true) JSVal.null true) =
      ((Result.mk (JSVal.boolean true) JSVal.null true).success,
        Result.mk (JSVal.boolean true) JSVal.null true) :=
  (result_read_idempotent (Result.mk (JSVal.boolean true) JSVal.null true)
    (Or.inl ⟨JSPromise.resolved (JSVal.boolean true), rfl⟩)).2.2.1

/-- C9: a callback raising the value `null` (or `undefined`) still yields
`success = false` with `error` equal to that raised value, so the
`success` discriminant stays reliable even when the produced record is
`data = null, error = null, success = false`; likewise for a promise
rejected with `null`. -/
theorem raised_null_still_failure :
    ∀ s : CallState,
      (tryCatchSync (fun _ => Except.error JSVal.null) s).1 =
        Except.ok { data := JSVal.null, error := JSVal.null, success := false } ∧
      (tryCatchSync (fun _ => Except.error JSVal.undef) s).1 =
        Except.ok { data := JSVal.null, error := JSVal.undef, success := false } ∧
      tryCatch (JSPromise.rejected JSVal.null) =
        JSPromise.resolved { data := JSVal.null, error := JSVal.null, success := false } := by
  intro s
  exact ⟨rfl, rfl, rfl⟩

/-- C10: the compiled CommonJS functions are extensionally equal to the
TypeScript source functions: on every input they produce the same Result
and the same invocation count, on both the success and failure paths. -/
theorem cjs_extensionally_equal :
    (∀ p, tryCatch_cjs p = tryCatch p) ∧
    (∀ (cb : Callback) (s : CallState), tryCatchSync_cjs cb s = tryCatchSync cb s) := by
  constructor
  · intro p
    cases p <;> rfl
  · intro cb s
    simp [tryCatchSync_cjs, tryCatchSync]

end TryCatchJS
